import Mathlib

/-!
Verification of the payment-classifier LLM client layer.

Shallow embedding of `app/core/exceptions.py`, `app/api/routes/classification.py`,
`app/clients/base_client.py`, `app/clients/ollama_client.py`,
`app/clients/gemini_client.py`, `app/clients/openai_client.py`,
`app/models/classification.py`, `app/services/search_service.py`
and `app/api/classification.py`.
-/

namespace PaymentClassifier

/-! ## Exception taxonomy (`app/core/exceptions.py`)

Python classes: `LLMClientError(Exception)` with subclasses `LLMTimeoutError`,
`LLMParseError`, `LLMRateLimitError`, `LLMValidationError`.  `ValueError` and
`aiohttp.ClientError` are unrelated built-in/library exceptions; `generic`
stands for any other exception type. -/

inductive ExcKind where
  | llmTimeout
  | llmParse
  | llmRateLimit
  | llmValidation
  | llmClient
  | valueError
  | aiohttpClient
  | generic
  deriving DecidableEq, Repr

/-- A raised Python exception: its dynamic class (`kind`), message, the
`correlation_id` / `model` attributes set by `LLMClientError.__init__`, and the
`__cause__` installed by `raise ... from e`. -/
inductive PyExc where
  | mk (kind : ExcKind) (msg : String) (correlationId : Option String)
      (model : Option String) (cause : Option PyExc)

def PyExc.kind : PyExc → ExcKind
  | .mk k _ _ _ _ => k

def PyExc.msg : PyExc → String
  | .mk _ m _ _ _ => m

def PyExc.correlationId : PyExc → Option String
  | .mk _ _ c _ _ => c

def PyExc.model : PyExc → Option String
  | .mk _ _ _ m _ => m

def PyExc.cause : PyExc → Option PyExc
  | .mk _ _ _ _ c => c

/-- `isinstance(e, LLMClientError)`: true for `LLMClientError` and all four
subclasses. -/
def isinstanceLLMClientError (k : ExcKind) : Bool :=
  match k with
  | .llmTimeout | .llmParse | .llmRateLimit | .llmValidation | .llmClient => true
  | _ => false

/-- `isinstance(e, LLMValidationError)` (the class has no subclasses). -/
def isinstanceLLMValidationError (k : ExcKind) : Bool :=
  k = .llmValidation

/-- `isinstance(e, ValueError)`: none of the LLM error classes derive from
`ValueError`. -/
def isinstanceValueError (k : ExcKind) : Bool :=
  k = .valueError

/-! ## HTTP status mapping (`app/api/routes/classification.py`, `classify_payment`)

The handler's `except` clauses in source order:
`LLMTimeoutError` → 408, `LLMParseError` → 422, `LLMClientError` → 503,
`ValueError` → 400, `Exception` → 500.  Python tries the clauses in order and
takes the first whose class matches via `isinstance`. -/

def classifyPaymentStatus (k : ExcKind) : Nat :=
  if k = ExcKind.llmTimeout then 408
  else if k = ExcKind.llmParse then 422
  else if isinstanceLLMClientError k then 503
  else if isinstanceValueError k then 400
  else 500

/-! ## Base client input validation (`BaseLLMClient._validate_inputs`) -/

structure BaseLLMConfig where
  timeout : Nat := 30
  max_retries : Nat := 3
  max_concurrent_requests : Nat := 10
  max_categories : Nat := 50
  max_payment_text_length : Nat := 10000
  enable_request_logging : Bool := true
  enable_response_logging : Bool := false
  deriving Repr

/-- Python `str.strip()` (restricted to ASCII whitespace): drop whitespace
from both ends. -/
def pyStrip (s : String) : String :=
  String.mk
    (((s.data.dropWhile Char.isWhitespace).reverse.dropWhile
      Char.isWhitespace).reverse)

/-- Python `str.lower()` (restricted to ASCII case mapping). -/
def pyLower (s : String) : String :=
  String.mk (s.data.map Char.toLower)

/-- `LLMValidationError(message)`: `correlation_id` and `model` default to
`None`, no cause. -/
def llmValidationErrorOf (message : String) : PyExc :=
  .mk .llmValidation message none none none

/-- `BaseLLMClient._validate_inputs`: the four checks in source order.
`not payment_text or not payment_text.strip()` is empty-or-all-whitespace. -/
def validate_inputs (cfg : BaseLLMConfig) (payment_text : String)
    (categories : List String) : Except PyExc Unit :=
  if payment_text = "" ∨ pyStrip payment_text = "" then
    .error (llmValidationErrorOf "payment_text cannot be empty")
  else if categories = [] then
    .error (llmValidationErrorOf "categories list cannot be empty")
  else if categories.length > cfg.max_categories then
    .error (llmValidationErrorOf "Too many categories")
  else if payment_text.length > cfg.max_payment_text_length then
    .error (llmValidationErrorOf "payment_text too long")
  else
    .ok ()

/-! ## Base client error translation (`BaseLLMClient.classify`, except-branch)

`is_known_error = isinstance(e, (LLMClientError, LLMValidationError))`; a known
error is re-raised unchanged, anything else is wrapped into
`LLMClientError(f"Unexpected error in {cls}", correlation_id, model) from e`. -/

def translateException (className correlationId modelName : String)
    (e : PyExc) : PyExc :=
  if isinstanceLLMClientError e.kind then e
  else
    .mk .llmClient ("Unexpected error in " ++ className)
      (some correlationId) (some modelName) (some e)

/-- The classification result object (`app/models/classification.py`,
`ClassificationResult`), restricted to the fields the client layer writes.
`confidence` is the raw optional JSON value; the metadata entries kept are the
ones the claims inspect. -/
structure ClassificationResult where
  category : String
  reasoning : String
  searchUsed : Bool := false
  correlationId : Option String := none
  modelUsed : Option String := none

/-- The stamping done by `classify` after `_parse_response`:
`result.correlation_id = correlation_id; result.model_used = model`. -/
def stampResult (r : ClassificationResult) (correlationId modelName : String) :
    ClassificationResult :=
  { r with correlationId := some correlationId, modelUsed := some modelName }

/-- `BaseLLMClient.classify`, with the provider-specific request abstracted as
an oracle.  The oracle reports how many times the underlying request
implementation ran, so attempt counts are observable.  Returns the outcome
together with the number of request-implementation invocations. -/
def classifyRun {R : Type} (cfg : BaseLLMConfig)
    (className modelName correlationId : String)
    (request : Unit → Except PyExc R × Nat)
    (parse : R → Except PyExc ClassificationResult)
    (payment_text : String) (categories : List String) :
    Except PyExc ClassificationResult × Nat :=
  match validate_inputs cfg payment_text categories with
  | .error e => (.error (translateException className correlationId modelName e), 0)
  | .ok () =>
    match request () with
    | (.error e, n) =>
      (.error (translateException className correlationId modelName e), n)
    | (.ok resp, n) =>
      match parse resp with
      | .error e =>
        (.error (translateException className correlationId modelName e), n)
      | .ok r => (.ok (stampResult r correlationId modelName), n)

/-! ## Retry wrapper (`tenacity.retry` as configured in `OllamaClient.__init__`)

`retry(reraise=True, stop=stop_after_attempt(max_retries), retry=retry_if_exception_type(...))`:
attempts are numbered from 1; after a failed attempt the exception is retried
only when its type matches and the attempt number is below the bound, otherwise
(`reraise=True`) the last exception is re-raised. -/

/-- The Ollama retry predicate:
`retry_if_exception_type((aiohttp.ClientError, LLMRateLimitError, LLMTimeoutError))`. -/
def ollamaRetryable (k : ExcKind) : Bool :=
  k = .aiohttpClient ∨ k = .llmRateLimit ∨ k = .llmTimeout

/-- `retryAux retryable f remaining i`: run attempt `i` of `f`; `remaining` is
the number of further attempts the stop condition still allows.  Returns the
final outcome and the number of the last attempt made. -/
def retryAux {A : Type} (retryable : ExcKind → Bool) (f : Nat → Except PyExc A) :
    Nat → Nat → Except PyExc A × Nat
  | 0, i => (f i, i)
  | k + 1, i =>
      match f i with
      | .ok a => (.ok a, i)
      | .error e =>
          if retryable e.kind then retryAux retryable f k (i + 1)
          else (.error e, i)

/-- The retry-wrapped call with `stop_after_attempt(maxAttempts)`. -/
def retryCall {A : Type} (retryable : ExcKind → Bool) (maxAttempts : Nat)
    (f : Nat → Except PyExc A) : Except PyExc A × Nat :=
  retryAux retryable f (maxAttempts - 1) 1

/-! ## Request-schema category normalization
(`app/models/classification.py`, `ClassificationRequest.validate_categories`) -/

/-- The cleaning loop: strip each entry, keep it only when non-blank and its
lowercase form was not seen before. -/
def cleanCategories : List String → List String → List String
  | [], _ => []
  | c :: rest, seen =>
      let cc := pyStrip c
      if cc ≠ "" ∧ pyLower cc ∉ seen then
        cc :: cleanCategories rest (pyLower cc :: seen)
      else
        cleanCategories rest seen

/-- `validate_categories`: empty-list guard, cleaning loop, non-empty and
max-20 checks on the cleaned list; returns the cleaned list (which pydantic
installs as the field value passed onward). -/
def validate_categories (v : List String) : Except String (List String) :=
  if v = [] then .error "Categories list cannot be empty"
  else
    let cleaned := cleanCategories v []
    if cleaned = [] then .error "At least one valid category must be provided"
    else if cleaned.length > 20 then .error "Maximum 20 categories allowed"
    else .ok cleaned

/-! ## Google search request parameters
(`app/services/search_service.py`, `GoogleSearchService._search_impl`) -/

structure SearchParams where
  key : String
  cx : String
  q : String
  num : Int
  deriving DecidableEq, Repr

/-- The `params` dict built by `_search_impl`: `"num": min(num_results, 10)`. -/
def searchImplParams (apiKey searchEngineId query : String) (numResults : Int) :
    SearchParams :=
  { key := apiKey, cx := searchEngineId, q := query, num := min numResults 10 }

/-! ## Decoded JSON payloads and response-schema validation
(`BaseLLMClient._validate_response_schema`, `OllamaClient._parse_response`) -/

inductive JsonVal where
  | str (s : String)
  | num (n : Int)
  | boolean (b : Bool)
  | null
  deriving DecidableEq, Repr

/-- A decoded JSON object, as an association list (first binding wins). -/
abbrev JsonObj := List (String × JsonVal)

def jsonLookup (d : JsonObj) (k : String) : Option JsonVal :=
  match d with
  | [] => none
  | (k', v) :: rest => if k' = k then some v else jsonLookup rest k

/-- `k in response_data`. -/
def jsonContains (d : JsonObj) (k : String) : Bool :=
  (jsonLookup d k).isSome

/-- `isinstance(·, str)` on a looked-up value. -/
def isStrVal : Option JsonVal → Bool
  | some (.str _) => true
  | _ => false

/-- `response_data[k]` once known to be a string. -/
def strValOf : Option JsonVal → String
  | some (.str s) => s
  | _ => ""

/-- `BaseLLMClient._validate_response_schema`: presence check then type check;
both failures raise `LLMClientError(message, model=model)` (so
`correlation_id` is `None`).  There is no emptiness check on the strings. -/
def validate_response_schema (modelName : String) (d : JsonObj) :
    Except PyExc Unit :=
  if !(jsonContains d "category" && jsonContains d "reasoning") then
    .error (.mk .llmClient "Missing required fields in response" none
      (some modelName) none)
  else if !(isStrVal (jsonLookup d "category") &&
      isStrVal (jsonLookup d "reasoning")) then
    .error (.mk .llmClient "Invalid types for category/reasoning in response" none
      (some modelName) none)
  else
    .ok ()

/-- The outcome of `json.loads` on the text of the provider response:
either a decode failure (`json.JSONDecodeError`) or a decoded JSON object.
(Claims only concern object payloads and malformed text.) -/
inductive DecodedPayload where
  | malformed
  | obj (d : JsonObj)

/-- `OllamaClient._parse_response`: `json.loads` failure is caught by
`except (json.JSONDecodeError, KeyError)` and re-raised as `LLMParseError`
with the decode error as cause; an `LLMClientError` from
`_validate_response_schema` is not of those types, so it propagates as is.
`search_used` in the metadata is `response.get("_search_used", False)`. -/
def ollamaParseResponse (modelName correlationId : String)
    (decoded : DecodedPayload) (searchUsedFlag : Bool) :
    Except PyExc ClassificationResult :=
  match decoded with
  | .malformed =>
      .error (.mk .llmParse "Invalid JSON response from Ollama"
        (some correlationId) (some modelName)
        (some (.mk .generic "JSONDecodeError" none none none)))
  | .obj d =>
      match validate_response_schema modelName d with
      | .error e => .error e
      | .ok () =>
          .ok { category := strValOf (jsonLookup d "category"),
                reasoning := strValOf (jsonLookup d "reasoning"),
                searchUsed := searchUsedFlag }

/-! ## Ollama classification request
(`OllamaClient._make_classification_request_impl`) -/

structure SearchResult where
  title : String
  snippet : String
  link : String
  deriving DecidableEq, Repr

/-- `"\n".join(f"- {title}: {snippet}" for result in search_results)`. -/
def searchResultsText (rs : List SearchResult) : String :=
  String.intercalate "\n" (rs.map (fun r => "- " ++ r.title ++ ": " ++ r.snippet))

/-- A formatted user prompt, as the prompt-provider key together with its
substitutions (`get_formatted_prompt`; the template text lives in external
configuration). -/
inductive UserPrompt where
  | classifyUserPrompt (payment_text valid_categories : String)
  | classifyUserPromptWithSearch (payment_text valid_categories search_results : String)
  deriving DecidableEq, Repr

/-- `", ".join(categories)`. -/
def joinCategories (cats : List String) : String :=
  String.intercalate ", " cats

/-- The value of `search_results_text` after the optional search step:
started as `""`; only when `use_search` and a search collaborator is
configured is the search call made, and only a non-empty result list sets the
text; any exception from the search call is logged and swallowed, leaving the
text empty. -/
def ollamaSearchText (useSearch searchConfigured : Bool)
    (searchOutcome : Except PyExc (List SearchResult)) : String :=
  if useSearch ∧ searchConfigured then
    match searchOutcome with
    | .ok rs => if rs = [] then "" else searchResultsText rs
    | .error _ => ""
  else ""

/-- The user prompt chosen by the impl: the with-search template only when
`use_search` and the search text is non-empty, else the plain template. -/
def ollamaUserPrompt (payment_text : String) (categories : List String)
    (useSearch searchConfigured : Bool)
    (searchOutcome : Except PyExc (List SearchResult)) : UserPrompt :=
  let stext := ollamaSearchText useSearch searchConfigured searchOutcome
  if useSearch ∧ stext ≠ "" then
    .classifyUserPromptWithSearch payment_text (joinCategories categories) stext
  else
    .classifyUserPrompt payment_text (joinCategories categories)

/-- `response_data["_search_used"] = use_search and bool(search_results_text)`. -/
def ollamaSearchUsedFlag (useSearch searchConfigured : Bool)
    (searchOutcome : Except PyExc (List SearchResult)) : Bool :=
  useSearch && !(ollamaSearchText useSearch searchConfigured searchOutcome == "")

/-- The JSON payload posted to `/api/generate`. -/
structure OllamaPayload where
  model : String
  systemPrompt : String
  userPrompt : UserPrompt
  stream : Bool
  format : String
  temperature : Rat
  deriving DecidableEq

def ollamaBuildPayload (modelName : String) (temperature : Rat)
    (systemPrompt : String) (userPrompt : UserPrompt) : OllamaPayload :=
  { model := modelName, systemPrompt := systemPrompt, userPrompt := userPrompt,
    stream := false, format := "json", temperature := temperature }

/-- The HTTP outcome of the post to the generation endpoint. -/
inductive OllamaHttpOutcome where
  | status429
  | statusTimeout (code : Nat)
  | statusError (code : Nat)
  | okBody (decoded : DecodedPayload)

/-- The status handling in the impl: 429 → `LLMRateLimitError`, 408/504 →
`LLMTimeoutError`, other error statuses → `raise_for_status` raising an
`aiohttp.ClientError`; on success the decoded body is returned together with
the `_search_used` flag added to it. -/
def ollamaHandleHttp (modelName correlationId : String)
    (outcome : OllamaHttpOutcome) (searchUsedFlag : Bool) :
    Except PyExc (DecodedPayload × Bool) :=
  match outcome with
  | .status429 =>
      .error (.mk .llmRateLimit "Ollama rate limited" (some correlationId)
        (some modelName) none)
  | .statusTimeout _ =>
      .error (.mk .llmTimeout "Ollama timed out" (some correlationId)
        (some modelName) none)
  | .statusError code =>
      .error (.mk .aiohttpClient ("HTTP " ++ toString code) none none none)
  | .okBody d => .ok (d, searchUsedFlag)

/-- One run of `_make_classification_request_impl`: build the prompt (with the
optional, failure-swallowing search step), post the payload to the backend
oracle, and handle the status. -/
def ollamaRequestImpl (modelName correlationId : String) (temperature : Rat)
    (systemPrompt payment_text : String) (categories : List String)
    (useSearch searchConfigured : Bool)
    (searchOutcome : Except PyExc (List SearchResult))
    (backend : OllamaPayload → OllamaHttpOutcome) :
    Except PyExc (DecodedPayload × Bool) :=
  let prompt := ollamaUserPrompt payment_text categories useSearch
    searchConfigured searchOutcome
  let payload := ollamaBuildPayload modelName temperature systemPrompt prompt
  ollamaHandleHttp modelName correlationId (backend payload)
    (ollamaSearchUsedFlag useSearch searchConfigured searchOutcome)

/-- The impl followed by `_parse_response`, as `classify` chains them. -/
def ollamaImplAndParse (modelName correlationId : String) (temperature : Rat)
    (systemPrompt payment_text : String) (categories : List String)
    (useSearch searchConfigured : Bool)
    (searchOutcome : Except PyExc (List SearchResult))
    (backend : OllamaPayload → OllamaHttpOutcome) :
    Except PyExc ClassificationResult :=
  match ollamaRequestImpl modelName correlationId temperature systemPrompt
      payment_text categories useSearch searchConfigured searchOutcome backend with
  | .error e => .error e
  | .ok (d, su) => ollamaParseResponse modelName correlationId d su

/-! ## Gemini and OpenAI request builders
(`GeminiClient._make_classification_request_impl`,
`OpenAIClient._make_classification_request_impl`) -/

/-- The structured-generation call built by the Gemini impl: prompt parts
(`f"{system_prompt}\n{user_prompt}"`) and the generation config fields. -/
structure GeminiRequest where
  systemPrompt : String
  userPrompt : UserPrompt
  responseMimeType : String
  schemaRequired : List String
  temperature : Rat
  maxOutputTokens : Nat
  deriving DecidableEq

def geminiBuildRequest (systemPrompt payment_text : String)
    (categories : List String) (temperature : Rat) (maxOutputTokens : Nat)
    (useSearch : Bool) : GeminiRequest :=
  { systemPrompt := systemPrompt,
    userPrompt := .classifyUserPrompt payment_text (joinCategories categories),
    responseMimeType := "application/json",
    schemaRequired := ["category", "reasoning"],
    temperature := temperature,
    maxOutputTokens := maxOutputTokens }

/-- The chat-completion call built by the OpenAI impl. -/
structure OpenAIRequest where
  model : String
  systemMessage : String
  userMessage : UserPrompt
  temperature : Rat
  maxTokens : Nat
  responseFormat : String
  deriving DecidableEq

def openaiBuildRequest (modelName systemPrompt payment_text : String)
    (categories : List String) (temperature : Rat) (maxTokens : Nat)
    (useSearch : Bool) : OpenAIRequest :=
  { model := modelName, systemMessage := systemPrompt,
    userMessage := .classifyUserPrompt payment_text (joinCategories categories),
    temperature := temperature, maxTokens := maxTokens,
    responseFormat := "json_object" }

/-! ## Client cache (`app/api/classification.py`, `get_cached_client`)

`get_cached_client` is a plain synchronous function with no suspension point,
so under the event loop's cooperative scheduling each call runs atomically;
concurrent callers are therefore modelled as an arbitrary sequence of calls.
`create_llm_client` is modelled as total, yielding a fresh instance identified
by a construction counter. -/

abbrev CacheKey := String × String

structure ClientsCache where
  entries : List (CacheKey × Nat)
  nextId : Nat

def cacheLookup (es : List (CacheKey × Nat)) (k : CacheKey) : Option Nat :=
  match es with
  | [] => none
  | (k', v) :: rest => if k' = k then some v else cacheLookup rest k

/-- One call: `if cache_key not in clients_cache: clients_cache[cache_key] =
create_llm_client(...)`; `return clients_cache[cache_key]`.  Also reports
whether `create_llm_client` ran. -/
def get_cached_client (st : ClientsCache) (k : CacheKey) :
    Nat × Bool × ClientsCache :=
  match cacheLookup st.entries k with
  | some clientId => (clientId, false, st)
  | none =>
      (st.nextId, true,
        { entries := (k, st.nextId) :: st.entries, nextId := st.nextId + 1 })

/-- Run a sequence of `get_cached_client` calls, producing the trace of
`(key, returned client, constructed?)` events. -/
def runGetClients (st : ClientsCache) :
    List CacheKey → List (CacheKey × Nat × Bool) × ClientsCache
  | [] => ([], st)
  | k :: ks =>
      let r := get_cached_client st k
      let rest := runGetClients r.2.2 ks
      ((k, r.1, r.2.1) :: rest.1, rest.2)

/-- Number of constructions for key `k` in a trace. -/
def constructionsFor (k : CacheKey) : List (CacheKey × Nat × Bool) → Nat
  | [] => 0
  | e :: tr => (if e.1 = k ∧ e.2.2 = true then 1 else 0) + constructionsFor k tr

/-- The clients returned for key `k` in a trace. -/
def resultsFor (k : CacheKey) : List (CacheKey × Nat × Bool) → List Nat
  | [] => []
  | e :: tr => if e.1 = k then e.2.1 :: resultsFor k tr else resultsFor k tr

/-- All elements of the list are equal. -/
def allEqual (l : List Nat) : Bool :=
  match l with
  | [] => true
  | x :: xs => xs.all (fun y => y == x)

/-! ## Observation helpers -/

def errorKindOf {A : Type} : Except PyExc A → Option ExcKind
  | .error e => some e.kind
  | .ok _ => none

def resultSearchUsed : Except PyExc ClassificationResult → Option Bool
  | .ok r => some r.searchUsed
  | .error _ => none

/-- Boolean check that `cs` is a correct normalization of `v`: every kept
entry is the non-blank strip of some input entry, and kept entries are
pairwise distinct case-insensitively. -/
def pairwiseLowerDistinct : List String → Bool
  | [] => true
  | c :: rest => rest.all (fun d => !(pyLower d == pyLower c)) &&
      pairwiseLowerDistinct rest

def normalizedFrom (v cs : List String) : Bool :=
  cs.all (fun c => !(c == "") && v.any (fun o => pyStrip o == c)) &&
    pairwiseLowerDistinct cs

/-- Whether the Ollama retry predicate would retry a failed outcome. -/
def errorOllamaRetryable {A : Type} : Except PyExc A → Option Bool
  | .error e => some (ollamaRetryable e.kind)
  | .ok _ => none

instance exceptDecEq {ε α : Type} [DecidableEq ε] [DecidableEq α] :
    DecidableEq (Except ε α) := fun x y =>
  match x, y with
  | .ok a, .ok b =>
      if h : a = b then .isTrue (by rw [h])
      else .isFalse (fun hc => by cases hc; exact h rfl)
  | .ok _, .error _ => .isFalse (fun hc => by cases hc)
  | .error _, .ok _ => .isFalse (fun hc => by cases hc)
  | .error e, .error f =>
      if h : e = f then .isTrue (by rw [h])
      else .isFalse (fun hc => by cases hc; exact h rfl)

/-! # Theorems -/

/-! ## Helper lemmas -/

theorem cleanCategories_sound (v : List String) :
    ∀ (seen : List String) (c : String), c ∈ cleanCategories v seen →
      c ≠ "" ∧ ∃ o ∈ v, pyStrip o = c := by
  induction v with
  | nil => intro seen c h; simp [cleanCategories] at h
  | cons a rest ih =>
      intro seen c h
      simp only [cleanCategories] at h
      by_cases hc : pyStrip a ≠ "" ∧ pyLower (pyStrip a) ∉ seen
      · rw [if_pos hc] at h
        rcases List.mem_cons.mp h with h1 | h2
        · subst h1
          exact ⟨hc.1, a, List.mem_cons_self a rest, rfl⟩
        · obtain ⟨hne, o, ho, hto⟩ := ih _ _ h2
          exact ⟨hne, o, List.mem_cons_of_mem a ho, hto⟩
      · rw [if_neg hc] at h
        obtain ⟨hne, o, ho, hto⟩ := ih _ _ h
        exact ⟨hne, o, List.mem_cons_of_mem a ho, hto⟩

theorem cleanCategories_lower_notin (v : List String) :
    ∀ (seen : List String) (c : String), c ∈ cleanCategories v seen →
      pyLower c ∉ seen := by
  induction v with
  | nil => intro seen c h; simp [cleanCategories] at h
  | cons a rest ih =>
      intro seen c h
      simp only [cleanCategories] at h
      by_cases hc : pyStrip a ≠ "" ∧ pyLower (pyStrip a) ∉ seen
      · rw [if_pos hc] at h
        rcases List.mem_cons.mp h with h1 | h2
        · subst h1; exact hc.2
        · have := ih _ _ h2
          exact fun hmem => this (List.mem_cons_of_mem _ hmem)
      · rw [if_neg hc] at h
        exact ih _ _ h

theorem cleanCategories_pairwise (v : List String) :
    ∀ (seen : List String), pairwiseLowerDistinct (cleanCategories v seen) = true := by
  induction v with
  | nil => intro seen; simp [cleanCategories, pairwiseLowerDistinct]
  | cons a rest ih =>
      intro seen
      simp only [cleanCategories]
      by_cases hc : pyStrip a ≠ "" ∧ pyLower (pyStrip a) ∉ seen
      · rw [if_pos hc]
        simp only [pairwiseLowerDistinct, Bool.and_eq_true, List.all_eq_true]
        refine ⟨?_, ih _⟩
        intro d hd
        have hnot := cleanCategories_lower_notin rest _ d hd
        have hne : pyLower d ≠ pyLower (pyStrip a) :=
          fun heq => hnot (heq ▸ List.mem_cons_self _ _)
        simp [hne]
      · rw [if_neg hc]; exact ih _

theorem allEqual_of_forall (l : List Nat) (v : Nat)
    (h : ∀ x ∈ l, x = v) : allEqual l = true := by
  cases l with
  | nil => rfl
  | cons x xs =>
      simp only [allEqual, List.all_eq_true]
      intro y hy
      rw [h y (List.mem_cons_of_mem x hy), h x (List.mem_cons_self x xs)]
      simp

/-! ## C1 -/

/-- C1 counterexample: a call failing with `LLMValidationError` is matched by
the `except LLMClientError` clause of `classify_payment`
(`LLMValidationError` subclasses `LLMClientError` and no earlier clause
matches it), so the endpoint answers 503, not the claimed 400. -/
theorem C1_counterexample :
    classifyPaymentStatus ExcKind.llmValidation = 503 ∧
    classifyPaymentStatus ExcKind.llmValidation ≠ 400 := by
  constructor
  · rfl
  · decide

/-- C1 (amended): `classify_payment` maps `LLMTimeoutError` to 408,
`LLMParseError` to 422, every other `LLMClientError` — including
`LLMValidationError` and `LLMRateLimitError` — to 503, a bare `ValueError`
to 400, and any other exception to 500. -/
theorem C1_status_mapping :
    classifyPaymentStatus .llmTimeout = 408 ∧
    classifyPaymentStatus .llmParse = 422 ∧
    classifyPaymentStatus .llmClient = 503 ∧
    classifyPaymentStatus .llmRateLimit = 503 ∧
    classifyPaymentStatus .llmValidation = 503 ∧
    classifyPaymentStatus .valueError = 400 ∧
    classifyPaymentStatus .aiohttpClient = 500 ∧
    classifyPaymentStatus .generic = 500 := by
  decide

/-! ## C2 -/

/-- C2 counterexample: a decoded payload whose `category` and `reasoning` are
empty strings passes `_validate_response_schema` (which checks presence and
type only), so `_parse_response` raises nothing and returns a
`ClassificationResult` with empty category and reasoning — contradicting both
the claimed `ParseError` and the claimed impossibility of an empty-field
result. -/
theorem C2_counterexample :
    ollamaParseResponse "qwen2.5:1.5b" "cid-1"
      (.obj [("category", .str ""), ("reasoning", .str "")]) false =
      .ok { category := "", reasoning := "", searchUsed := false } := by
  rfl

/-- C2 (amended): a decoded payload that lacks `category` or `reasoning`, or
has a non-string value for either, makes response parsing raise an
`LLMClientError` (not an `LLMParseError`), and that error is not retried by
the Ollama retry predicate; empty strings, however, are accepted. -/
theorem C2_schema_violation_errors (m c : String) (su : Bool) (d : JsonObj)
    (h : jsonContains d "category" = false ∨ jsonContains d "reasoning" = false ∨
      isStrVal (jsonLookup d "category") = false ∨
      isStrVal (jsonLookup d "reasoning") = false) :
    errorKindOf (ollamaParseResponse m c (.obj d) su) = some .llmClient ∧
    errorOllamaRetryable (ollamaParseResponse m c (.obj d) su) = some false := by
  have hbad : (jsonContains d "category" && jsonContains d "reasoning") = false ∨
      ((jsonContains d "category" && jsonContains d "reasoning") = true ∧
        (isStrVal (jsonLookup d "category") &&
          isStrVal (jsonLookup d "reasoning")) = false) := by
    rcases h with h | h | h | h
    · exact Or.inl (by simp [h])
    · exact Or.inl (by simp [h])
    · cases hcb : (jsonContains d "category" && jsonContains d "reasoning") with
      | false => exact Or.inl rfl
      | true => exact Or.inr ⟨rfl, by simp [h]⟩
    · cases hcb : (jsonContains d "category" && jsonContains d "reasoning") with
      | false => exact Or.inl rfl
      | true => exact Or.inr ⟨rfl, by simp [h]⟩
  rcases hbad with hb | ⟨hb1, hb2⟩
  · simp [ollamaParseResponse, validate_response_schema, hb, errorKindOf,
      errorOllamaRetryable, PyExc.kind, ollamaRetryable]
  · simp [ollamaParseResponse, validate_response_schema, hb1, hb2, errorKindOf,
      errorOllamaRetryable, PyExc.kind, ollamaRetryable]

/-- Witness for C2's amended theorem at a concrete payload lacking
`category`. -/
theorem C2_schema_violation_witness :
    errorKindOf (ollamaParseResponse "qwen2.5:1.5b" "cid-1"
      (.obj [("reasoning", .str "a store")]) false) = some .llmClient ∧
    errorOllamaRetryable (ollamaParseResponse "qwen2.5:1.5b" "cid-1"
      (.obj [("reasoning", .str "a store")]) false) = some false :=
  C2_schema_violation_errors "qwen2.5:1.5b" "cid-1" false
    [("reasoning", .str "a store")] (Or.inl (by decide))

/-! ## C7 -/

/-- C7: the request-schema category validator maps
`["food","FOOD"," food ","", "entertainment"]` to `["food","entertainment"]`;
in general a successful validation returns a list whose entries are non-blank
strips of input entries and are pairwise distinct case-insensitively, and that
returned list is the field value passed onward. -/
theorem C7_validate_categories :
    validate_categories ["food", "FOOD", " food ", "", "entertainment"] =
      .ok ["food", "entertainment"] ∧
    ∀ (v cs : List String), validate_categories v = .ok cs →
      normalizedFrom v cs = true := by
  constructor
  · decide
  · intro v cs h
    have hcs : cleanCategories v [] = cs := by
      simp only [validate_categories] at h
      by_cases h1 : v = []
      · rw [if_pos h1] at h; exact Except.noConfusion h
      · rw [if_neg h1] at h
        by_cases h2 : cleanCategories v [] = []
        · rw [if_pos h2] at h; exact Except.noConfusion h
        · rw [if_neg h2] at h
          by_cases h3 : (cleanCategories v []).length > 20
          · rw [if_pos h3] at h; exact Except.noConfusion h
          · rw [if_neg h3] at h; injection h
    subst hcs
    simp only [normalizedFrom, Bool.and_eq_true, List.all_eq_true]
    refine ⟨?_, cleanCategories_pairwise v []⟩
    intro c hc
    obtain ⟨hne, o, ho, hto⟩ := cleanCategories_sound v [] c hc
    simp only [Bool.and_eq_true, Bool.not_eq_true', beq_eq_false_iff_ne,
      List.any_eq_true]
    exact ⟨hne, o, ho, by simp [hto]⟩

/-- Witness for C7's general part at a fresh concrete input. -/
theorem C7_validate_categories_witness :
    normalizedFrom ["Rent ", "rent", "Utilities"] ["Rent", "Utilities"] = true :=
  C7_validate_categories.2 ["Rent ", "rent", "Utilities"] ["Rent", "Utilities"]
    (by decide)

/-! ## C9 -/

/-- C9: the Gemini and OpenAI request builders are completely independent of
`use_search` — the flag is accepted and silently ignored, so the two requests
built for the two flag values are identical. -/
theorem C9_use_search_independent :
    ∀ (systemPrompt payment_text modelName : String) (categories : List String)
      (t : Rat) (mot mt : Nat),
      geminiBuildRequest systemPrompt payment_text categories t mot true =
        geminiBuildRequest systemPrompt payment_text categories t mot false ∧
      openaiBuildRequest modelName systemPrompt payment_text categories t mt true =
        openaiBuildRequest modelName systemPrompt payment_text categories t mt false := by
  intro systemPrompt payment_text modelName categories t mot mt
  exact ⟨rfl, rfl⟩

/-! ## C10 -/

/-- C10: the outgoing Google search request's `num` parameter equals
`min(num_results, 10)`, hence never exceeds 10 — values above 10 are silently
clamped, not rejected. -/
theorem C10_search_num_clamped :
    ∀ (apiKey searchEngineId query : String) (numResults : Int),
      (searchImplParams apiKey searchEngineId query numResults).num =
        min numResults 10 ∧
      (searchImplParams apiKey searchEngineId query numResults).num ≤ 10 := by
  intro apiKey searchEngineId query numResults
  exact ⟨rfl, min_le_right numResults 10⟩

/-! ## C3 -/

theorem validate_inputs_error (cfg : BaseLLMConfig) (payment_text : String)
    (categories : List String)
    (h : payment_text = "" ∨ pyStrip payment_text = "" ∨ categories = [] ∨
      categories.length > cfg.max_categories ∨
      payment_text.length > cfg.max_payment_text_length) :
    ∃ e, validate_inputs cfg payment_text categories = .error e ∧
      e.kind = .llmValidation := by
  unfold validate_inputs
  split_ifs with h1 h2 h3 h4
  · exact ⟨_, rfl, rfl⟩
  · exact ⟨_, rfl, rfl⟩
  · exact ⟨_, rfl, rfl⟩
  · exact ⟨_, rfl, rfl⟩
  · exfalso
    push_neg at h1
    rcases h with h | h | h | h | h
    · exact h1.1 h
    · exact h1.2 h
    · exact h2 h
    · exact h3 h
    · exact h4 h

/-- C3: an empty or all-whitespace payment text, an over-long payment text, an
empty category list, or an over-long category list makes `classify` fail with
`LLMValidationError` before the provider-specific request method is invoked:
the request-invocation count is 0, so no backend contact and no retry is
consumed. -/
theorem C3_validation_before_request {R : Type} (cfg : BaseLLMConfig)
    (className modelName correlationId payment_text : String)
    (categories : List String)
    (request : Unit → Except PyExc R × Nat)
    (parse : R → Except PyExc ClassificationResult)
    (h : payment_text = "" ∨ pyStrip payment_text = "" ∨ categories = [] ∨
      categories.length > cfg.max_categories ∨
      payment_text.length > cfg.max_payment_text_length) :
    errorKindOf (classifyRun cfg className modelName correlationId request parse
      payment_text categories).1 = some .llmValidation ∧
    (classifyRun cfg className modelName correlationId request parse
      payment_text categories).2 = 0 := by
  obtain ⟨e, he, hk⟩ := validate_inputs_error cfg payment_text categories h
  have htr : translateException className correlationId modelName e = e := by
    simp [translateException, hk, isinstanceLLMClientError]
  constructor
  · simp [classifyRun, he, htr, errorKindOf, hk]
  · simp [classifyRun, he]

/-- Witness for C3 at an empty payment text. -/
theorem C3_validation_witness :
    errorKindOf (classifyRun (R := Unit) {} "BaseLLMClient" "qwen2.5:1.5b"
      "cid-3" (fun _ => (.ok (), 1))
      (fun _ => .ok { category := "c", reasoning := "r" }) "" ["a"]).1 =
      some .llmValidation ∧
    (classifyRun (R := Unit) {} "BaseLLMClient" "qwen2.5:1.5b"
      "cid-3" (fun _ => (.ok (), 1))
      (fun _ => .ok { category := "c", reasoning := "r" }) "" ["a"]).2 = 0 :=
  C3_validation_before_request {} "BaseLLMClient" "qwen2.5:1.5b" "cid-3" ""
    ["a"] (fun _ => (.ok (), 1))
    (fun _ => .ok { category := "c", reasoning := "r" }) (Or.inl rfl)

/-! ## C4 -/

/-- C4: a known-taxonomy exception (any `LLMClientError`, including its four
subclasses) propagates from `classify` unchanged; any other exception is
wrapped as an `LLMClientError` carrying the correlation id and model name with
the original exception as cause; and every error `classify` raises is of a
known taxonomy kind. -/
theorem C4_error_translation :
    ∀ (className correlationId modelName : String) (e : PyExc),
      (isinstanceLLMClientError e.kind = true →
        translateException className correlationId modelName e = e) ∧
      (isinstanceLLMClientError e.kind = false →
        translateException className correlationId modelName e =
          .mk .llmClient ("Unexpected error in " ++ className)
            (some correlationId) (some modelName) (some e)) ∧
      (∀ {R : Type} (cfg : BaseLLMConfig)
        (request : Unit → Except PyExc R × Nat)
        (parse : R → Except PyExc ClassificationResult)
        (payment_text : String) (categories : List String) (k : ExcKind),
        errorKindOf (classifyRun cfg className modelName correlationId request
          parse payment_text categories).1 = some k →
        isinstanceLLMClientError k = true) := by
  intro className correlationId modelName e
  have hknown : ∀ e' : PyExc, isinstanceLLMClientError
      (translateException className correlationId modelName e').kind = true := by
    intro e'
    cases hb : isinstanceLLMClientError e'.kind with
    | true =>
        unfold translateException
        rw [if_pos hb]
        exact hb
    | false =>
        unfold translateException
        rw [if_neg (by simp [hb])]
        rfl
  refine ⟨?_, ?_, ?_⟩
  · intro hb
    unfold translateException
    rw [if_pos hb]
  · intro hb
    unfold translateException
    rw [if_neg (by simp [hb])]
  · intro R cfg request parse payment_text categories k hk
    unfold classifyRun at hk
    split at hk
    · dsimp only at hk
      simp only [errorKindOf, Option.some.injEq] at hk
      rw [← hk]
      exact hknown _
    · split at hk
      · dsimp only at hk
        simp only [errorKindOf, Option.some.injEq] at hk
        rw [← hk]
        exact hknown _
      · split at hk
        · dsimp only at hk
          simp only [errorKindOf, Option.some.injEq] at hk
          rw [← hk]
          exact hknown _
        · dsimp only at hk
          simp only [errorKindOf] at hk
          exact Option.noConfusion hk

/-- Witness for C4: a timeout error passes through unchanged, a generic error
is wrapped with correlation id, model and cause, and a classify error kind is
always a known kind. -/
theorem C4_error_translation_witness :
    translateException "OllamaClient" "cid-4" "qwen2.5:1.5b"
        (.mk .llmTimeout "t" none none none) =
      (.mk .llmTimeout "t" none none none) ∧
    translateException "OllamaClient" "cid-4" "qwen2.5:1.5b"
        (.mk .generic "boom" none none none) =
      (.mk .llmClient "Unexpected error in OllamaClient" (some "cid-4")
        (some "qwen2.5:1.5b") (some (.mk .generic "boom" none none none))) ∧
    isinstanceLLMClientError ExcKind.llmClient = true :=
  ⟨(C4_error_translation "OllamaClient" "cid-4" "qwen2.5:1.5b"
      (.mk .llmTimeout "t" none none none)).1 rfl,
   (C4_error_translation "OllamaClient" "cid-4" "qwen2.5:1.5b"
      (.mk .generic "boom" none none none)).2.1 rfl,
   (C4_error_translation "OllamaClient" "cid-4" "qwen2.5:1.5b"
      (.mk .generic "boom" none none none)).2.2 {}
      (fun _ => ((.error (.mk .generic "boom" none none none) :
        Except PyExc Unit), 1))
      (fun _ => .ok { category := "c", reasoning := "r" }) "t" ["a"]
      .llmClient (by decide)⟩

/-! ## C5 -/

theorem retryAux_all_timeout {A : Type} (f : Nat → Except PyExc A)
    (h : ∀ i, ∃ e, f i = .error e ∧ e.kind = .llmTimeout) :
    ∀ (k i : Nat), ∃ e, retryAux ollamaRetryable f k i = (.error e, k + i) ∧
      e.kind = .llmTimeout ∧ f (k + i) = .error e := by
  intro k
  induction k with
  | zero =>
      intro i
      obtain ⟨e, he, hk⟩ := h i
      exact ⟨e, by simp [retryAux, he], hk, by simpa using he⟩
  | succ k ih =>
      intro i
      obtain ⟨e, he, hk⟩ := h i
      obtain ⟨e', he', hk', hf'⟩ := ih (i + 1)
      have harith : k + (i + 1) = (k + 1) + i := by omega
      rw [harith] at he' hf'
      have hr : ollamaRetryable e.kind = true := by rw [hk]; decide
      refine ⟨e', ?_, hk', hf'⟩
      simp [retryAux, he, hr, he']

/-- C5: for the Ollama client with configured max retries `N ≥ 1`, if every
attempt of the request implementation raises `LLMTimeoutError`, then
`classify` raises exactly the last `LLMTimeoutError` (unchanged, not
re-wrapped) and the implementation is invoked exactly `N` times. -/
theorem C5_timeout_exhausts_retries {R : Type} (cfg : BaseLLMConfig)
    (className modelName correlationId payment_text : String)
    (categories : List String) (impl : Nat → Except PyExc R)
    (parse : R → Except PyExc ClassificationResult)
    (hN : 1 ≤ cfg.max_retries)
    (h : ∀ i, ∃ e, impl i = .error e ∧ e.kind = .llmTimeout)
    (hv : validate_inputs cfg payment_text categories = .ok ()) :
    errorKindOf (classifyRun cfg className modelName correlationId
        (fun _ => retryCall ollamaRetryable cfg.max_retries impl) parse
        payment_text categories).1 = some .llmTimeout ∧
    (classifyRun cfg className modelName correlationId
        (fun _ => retryCall ollamaRetryable cfg.max_retries impl) parse
        payment_text categories).2 = cfg.max_retries ∧
    ∀ e, impl cfg.max_retries = .error e →
      (classifyRun cfg className modelName correlationId
        (fun _ => retryCall ollamaRetryable cfg.max_retries impl) parse
        payment_text categories).1 = .error e := by
  obtain ⟨e', hr, hk', hf'⟩ := retryAux_all_timeout impl h (cfg.max_retries - 1) 1
  have hN' : cfg.max_retries - 1 + 1 = cfg.max_retries := by omega
  rw [hN'] at hr hf'
  have hcall : retryCall ollamaRetryable cfg.max_retries impl =
      (.error e', cfg.max_retries) := hr
  have htr : translateException className correlationId modelName e' = e' := by
    simp [translateException, hk', isinstanceLLMClientError]
  refine ⟨?_, ?_, ?_⟩
  · simp [classifyRun, hv, hcall, htr, errorKindOf, hk']
  · simp [classifyRun, hv, hcall]
  · intro e he
    have hee : e' = e := by
      rw [hf'] at he
      injection he
    subst hee
    simp [classifyRun, hv, hcall, htr]

/-- Witness for C5: with the default config (max retries 3) and an
implementation that always times out, classify makes exactly 3 attempts and
surfaces the timeout error itself. -/
theorem C5_timeout_witness :
    errorKindOf (classifyRun (R := Unit) {} "OllamaClient" "qwen2.5:1.5b"
        "cid-5" (fun _ => retryCall ollamaRetryable ({} : BaseLLMConfig).max_retries
          (fun _ => .error (.mk .llmTimeout "Ollama timed out" none none none)))
        (fun _ => .ok { category := "c", reasoning := "r" }) "t" ["a"]).1 =
      some .llmTimeout ∧
    (classifyRun (R := Unit) {} "OllamaClient" "qwen2.5:1.5b"
        "cid-5" (fun _ => retryCall ollamaRetryable ({} : BaseLLMConfig).max_retries
          (fun _ => .error (.mk .llmTimeout "Ollama timed out" none none none)))
        (fun _ => .ok { category := "c", reasoning := "r" }) "t" ["a"]).2 = 3 ∧
    (classifyRun (R := Unit) {} "OllamaClient" "qwen2.5:1.5b"
        "cid-5" (fun _ => retryCall ollamaRetryable ({} : BaseLLMConfig).max_retries
          (fun _ => .error (.mk .llmTimeout "Ollama timed out" none none none)))
        (fun _ => .ok { category := "c", reasoning := "r" }) "t" ["a"]).1 =
      .error (.mk .llmTimeout "Ollama timed out" none none none) :=
  ⟨(C5_timeout_exhausts_retries {} "OllamaClient" "qwen2.5:1.5b" "cid-5" "t"
      ["a"] (fun _ => .error (.mk .llmTimeout "Ollama timed out" none none none))
      (fun _ => .ok { category := "c", reasoning := "r" }) (by decide)
      (fun _ => ⟨_, rfl, rfl⟩) rfl).1,
   (C5_timeout_exhausts_retries {} "OllamaClient" "qwen2.5:1.5b" "cid-5" "t"
      ["a"] (fun _ => .error (.mk .llmTimeout "Ollama timed out" none none none))
      (fun _ => .ok { category := "c", reasoning := "r" }) (by decide)
      (fun _ => ⟨_, rfl, rfl⟩) rfl).2.1,
   (C5_timeout_exhausts_retries {} "OllamaClient" "qwen2.5:1.5b" "cid-5" "t"
      ["a"] (fun _ => .error (.mk .llmTimeout "Ollama timed out" none none none))
      (fun _ => .ok { category := "c", reasoning := "r" }) (by decide)
      (fun _ => ⟨_, rfl, rfl⟩) rfl).2.2 _ rfl⟩

/-! ## C6 -/

/-- C6: for the Ollama client with `use_search = true` and a search
collaborator configured, if the search call raises, classification still
completes using the unenriched (plain) prompt, the swallowed exception never
propagates, and the returned result's metadata records `search_used = false`
(given a backend reply whose decoded body passes the response schema). -/
theorem C6_search_failure_swallowed (modelName correlationId : String)
    (temperature : Rat) (systemPrompt payment_text : String)
    (categories : List String) (e : PyExc) (d : JsonObj)
    (hd : validate_response_schema modelName d = .ok ()) :
    ollamaUserPrompt payment_text categories true true (.error e) =
      .classifyUserPrompt payment_text (joinCategories categories) ∧
    ollamaSearchUsedFlag true true (.error e) = false ∧
    resultSearchUsed (ollamaImplAndParse modelName correlationId temperature
      systemPrompt payment_text categories true true (.error e)
      (fun _ => .okBody (.obj d))) = some false := by
  refine ⟨?_, ?_, ?_⟩
  · simp [ollamaUserPrompt, ollamaSearchText]
  · simp [ollamaSearchUsedFlag, ollamaSearchText]
  · simp [ollamaImplAndParse, ollamaRequestImpl, ollamaHandleHttp,
      ollamaSearchUsedFlag, ollamaSearchText, ollamaParseResponse, hd,
      resultSearchUsed]

/-- Witness for C6 at a concrete failing search and a well-formed backend
reply. -/
theorem C6_search_failure_witness :
    ollamaUserPrompt "Walmart grocery purchase" ["groceries", "other"] true true
        (.error (.mk .generic "search down" none none none)) =
      .classifyUserPrompt "Walmart grocery purchase"
        (joinCategories ["groceries", "other"]) ∧
    ollamaSearchUsedFlag true true
        (.error (.mk .generic "search down" none none none)) = false ∧
    resultSearchUsed (ollamaImplAndParse "qwen2.5:1.5b" "cid-6" 0 "sys"
      "Walmart grocery purchase" ["groceries", "other"] true true
      (.error (.mk .generic "search down" none none none))
      (fun _ => .okBody (.obj [("category", .str "groceries"),
        ("reasoning", .str "store")]))) = some false :=
  C6_search_failure_swallowed "qwen2.5:1.5b" "cid-6" 0 "sys"
    "Walmart grocery purchase" ["groceries", "other"]
    (.mk .generic "search down" none none none)
    [("category", .str "groceries"), ("reasoning", .str "store")] rfl

/-! ## C8 -/

theorem lookup_stable (st : ClientsCache) (k k' : CacheKey) (v : Nat)
    (h : cacheLookup st.entries k = some v) :
    cacheLookup (get_cached_client st k').2.2.entries k = some v := by
  unfold get_cached_client
  cases hl : cacheLookup st.entries k' with
  | some w => simp only [hl]; exact h
  | none =>
      have hne : k' ≠ k := by
        intro heq
        rw [heq, h] at hl
        exact Option.noConfusion hl
      simp only [hl, cacheLookup]
      rw [if_neg hne]
      exact h

theorem run_cached (k : CacheKey) (v : Nat) (ks : List CacheKey) :
    ∀ (st : ClientsCache), cacheLookup st.entries k = some v →
      constructionsFor k (runGetClients st ks).1 = 0 ∧
      ∀ x ∈ resultsFor k (runGetClients st ks).1, x = v := by
  induction ks with
  | nil =>
      intro st _
      exact ⟨rfl, by intro x hx; cases hx⟩
  | cons k' ks ih =>
      intro st h
      obtain ⟨ihc, ihr⟩ := ih (get_cached_client st k').2.2 (lookup_stable st k k' v h)
      by_cases hk : k' = k
      · subst hk
        have hcall : get_cached_client st k' = (v, false, st) := by
          simp [get_cached_client, h]
        constructor
        · simp only [runGetClients, constructionsFor, hcall]
          rw [if_neg (fun hand => Bool.noConfusion hand.2)]
          rw [hcall] at ihc
          simpa using ihc
        · intro x hx
          simp only [runGetClients, resultsFor, hcall] at hx
          rw [if_pos (by simp)] at hx
          rw [hcall] at ihr
          rcases List.mem_cons.mp hx with h1 | h1
          · exact h1
          · exact ihr x h1
      · constructor
        · simp only [runGetClients, constructionsFor]
          rw [if_neg (fun hand => hk hand.1)]
          simpa using ihc
        · intro x hx
          simp only [runGetClients, resultsFor] at hx
          rw [if_neg hk] at hx
          exact ihr x hx

theorem run_general (k : CacheKey) (ks : List CacheKey) :
    ∀ (st : ClientsCache),
      constructionsFor k (runGetClients st ks).1 ≤ 1 ∧
      allEqual (resultsFor k (runGetClients st ks).1) = true ∧
      (cacheLookup st.entries k = none → k ∈ ks →
        constructionsFor k (runGetClients st ks).1 = 1) := by
  induction ks with
  | nil =>
      intro st
      refine ⟨by simp [runGetClients, constructionsFor], ?_, ?_⟩
      · simp [runGetClients, resultsFor, allEqual]
      · intro _ hmem
        cases hmem
  | cons k' ks ih =>
      intro st
      cases hl : cacheLookup st.entries k with
      | some v =>
          obtain ⟨hc0, hall⟩ := run_cached k v (k' :: ks) st hl
          refine ⟨by rw [hc0]; omega,
            allEqual_of_forall _ v hall, ?_⟩
          intro hnone _
          exact Option.noConfusion hnone
      | none =>
          by_cases hk : k' = k
          · subst hk
            have hcall : get_cached_client st k' =
                (st.nextId, true,
                  ⟨(k', st.nextId) :: st.entries, st.nextId + 1⟩) := by
              simp [get_cached_client, hl]
            have hlook2 : cacheLookup
                (((k', st.nextId) :: st.entries) :
                  List (CacheKey × Nat)) k' = some st.nextId := by
              simp [cacheLookup]
            obtain ⟨hc0, hall⟩ := run_cached k' st.nextId ks
              ⟨(k', st.nextId) :: st.entries, st.nextId + 1⟩ hlook2
            have hone : constructionsFor k' (runGetClients st (k' :: ks)).1 = 1 := by
              simp only [runGetClients, constructionsFor, hcall]
              rw [if_pos (by simp)]
              rw [hc0]
            refine ⟨by rw [hone], ?_, fun _ _ => hone⟩
            apply allEqual_of_forall _ st.nextId
            intro x hx
            simp only [runGetClients, resultsFor, hcall] at hx
            rw [if_pos (by simp)] at hx
            rcases List.mem_cons.mp hx with h1 | h1
            · exact h1
            · exact hall x h1
          · have hnone2 : cacheLookup
                (get_cached_client st k').2.2.entries k = none := by
              unfold get_cached_client
              cases hl' : cacheLookup st.entries k' with
              | some w => simp only [hl']; exact hl
              | none =>
                  simp only [hl', cacheLookup]
                  rw [if_neg hk]
                  exact hl
            obtain ⟨ihle, ihall, ihone⟩ := ih (get_cached_client st k').2.2
            refine ⟨?_, ?_, ?_⟩
            · simp only [runGetClients, constructionsFor]
              rw [if_neg (fun hand => hk hand.1)]
              simpa using ihle
            · simp only [runGetClients, resultsFor]
              rw [if_neg hk]
              exact ihall
            · intro _ hmem
              have hmem' : k ∈ ks := by
                rcases List.mem_cons.mp hmem with h1 | h1
                · exact absurd h1.symm hk
                · exact h1
              simp only [runGetClients, constructionsFor]
              rw [if_neg (fun hand => hk hand.1)]
              simpa using ihone hnone2 hmem'

/-- C8: over any sequence of `get_cached_client` calls (each call is atomic —
the function has no suspension point, so concurrent callers on the
single-threaded event loop serialize into such a sequence), construction for a
given provider+model key happens at most once, all calls with that key return
the identical cached instance, and an initially uncached key that is requested
at least once is constructed exactly once. -/
theorem C8_cache_single_construction (st : ClientsCache) (ks : List CacheKey)
    (k : CacheKey) :
    constructionsFor k (runGetClients st ks).1 ≤ 1 ∧
    allEqual (resultsFor k (runGetClients st ks).1) = true ∧
    (cacheLookup st.entries k = none → k ∈ ks →
      constructionsFor k (runGetClients st ks).1 = 1) :=
  run_general k ks st

/-- Witness for C8: two calls for the same key and one for another key, from
an empty cache. -/
theorem C8_cache_witness :
    constructionsFor ("local", "qwen2.5:1.5b")
      (runGetClients ⟨[], 0⟩ [("local", "qwen2.5:1.5b"),
        ("local", "qwen2.5:1.5b"), ("cloud", "gemini-2.5-flash")]).1 = 1 ∧
    allEqual (resultsFor ("local", "qwen2.5:1.5b")
      (runGetClients ⟨[], 0⟩ [("local", "qwen2.5:1.5b"),
        ("local", "qwen2.5:1.5b"), ("cloud", "gemini-2.5-flash")]).1) = true :=
  ⟨(C8_cache_single_construction ⟨[], 0⟩ [("local", "qwen2.5:1.5b"),
      ("local", "qwen2.5:1.5b"), ("cloud", "gemini-2.5-flash")]
      ("local", "qwen2.5:1.5b")).2.2 rfl (by decide),
   (C8_cache_single_construction ⟨[], 0⟩ [("local", "qwen2.5:1.5b"),
      ("local", "qwen2.5:1.5b"), ("cloud", "gemini-2.5-flash")]
      ("local", "qwen2.5:1.5b")).2.1⟩

end PaymentClassifier
